import Mathlib

/-!
Verification of the authentication/authorization core of the Coffee-Shop
backend (`src/backend/src/auth/auth.py` and the `AuthError` boundary handler
in `src/backend/src/api.py`), as a shallow embedding in Lean 4.

Modelling conventions:
* `AuthError(error={'code':…,'description':…}, status_code=…)` becomes the
  structure `AuthError` holding an `AuthErrorData` and a status code.
* The Flask request's `Authorization` header is passed explicitly as an
  `Option String` (absent header = `none`).
* Python's `str.split(' ')` is `String.splitOn " "` (identical semantics,
  including empty fragments for repeated separators).
* The two external effects inside `verify_decode_jwt` — the JWKS fetch
  (`urlopen` + `json.loads`) and `jwt.decode` — are passed in as data: the
  fetch result is an `Except String Jwks` (`.error msg` = the uncaught
  exception the fetch would raise), and the decode step is a function
  `RsaKey → DecodeResult` whose constructors mirror the `except` arms of the
  source (`ExpiredSignatureError`, `JWTClaimsError`, any other exception).
  An exception that the Python code does not catch is modelled by the
  `VerifyError.exception` constructor, distinct from `VerifyError.authError`.
* The `requires_auth` wrapper additionally returns the list of argument
  vectors the wrapped handler was invoked with, so that "the handler is
  never invoked" / "invoked exactly once" are stateable.
-/

namespace CoffeeShop

/-- Contents of the `error` dict of `class AuthError(Exception)`: every raise
site carries a machine-readable `code` and a human-readable `description`. -/
structure AuthErrorData where
  code : String
  description : String
deriving Repr, DecidableEq

/-- The `AuthError` exception, auth.py lines 19-22: an `error` dict plus a
`status_code`. -/
structure AuthError where
  error : AuthErrorData
  status_code : Nat
deriving Repr, DecidableEq

/-- Helper for the embedding of Python's `split(' ')`: the accumulator holds
the current fragment's characters in reverse. -/
def py_split_space_aux : List Char → List Char → List String
  | [], acc => [String.mk acc.reverse]
  | c :: cs, acc =>
    if c = ' ' then String.mk acc.reverse :: py_split_space_aux cs []
    else py_split_space_aux cs (c :: acc)

/-- Python's `value.split(' ')` as used at auth.py line 47: split at every
single space, keeping empty fragments for leading, trailing or repeated
spaces (structural recursion over the character list, so the kernel can
evaluate it). -/
def py_split_space (s : String) : List String :=
  py_split_space_aux s.data []

/-- Python's `str.lower()` (character-wise lower-casing). -/
def py_lower (s : String) : String :=
  String.mk (s.data.map Char.toLower)

/-- Token extraction, `get_token_auth_header`, auth.py lines 37-58.  The
request's `Authorization` header value is passed explicitly (`none` = header
absent). -/
def get_token_auth_header (authorization : Option String) : Except AuthError String :=
  match authorization with
  | none =>
    .error ⟨⟨"authorization_header_missing", "Authorization header is expected"⟩, 401⟩
  | some value =>
    let auth_parts := py_split_space value
    if auth_parts.length ≠ 2 ∨ py_lower (auth_parts.headD "") ≠ "bearer" then
      .error ⟨⟨"invalid_header",
        "header must start with 'Bearer' and include proper token"⟩, 401⟩
    else
      .ok (auth_parts.getD 1 "")

/-- A decoded JWT payload: the `permissions` entry (`none` = the key is
absent from the dict) plus the remaining claims (`aud`, `iss`, `exp`, …). -/
structure Payload where
  permissions : Option (List String)
  claims : List (String × String) := []
deriving Repr, DecidableEq

/-- Permission enforcement, `check_permissions(permission, payload)`,
auth.py lines 74-90. -/
def check_permissions (permission : String) (payload : Payload) : Except AuthError Bool :=
  match payload.permissions with
  | none =>
    .error ⟨⟨"missing_permissions", "permissions must be sent with token"⟩, 401⟩
  | some perms =>
    if permission ∉ perms then
      .error ⟨⟨"not_authorized", "needed permission not found in permissions"⟩, 401⟩
    else
      .ok true

/-- One entry of the fetched JWKS `keys` array: the five fields the source
reads, plus whatever other fields the issuer includes (`alg`, `x5c`, …). -/
structure JwksKey where
  kty : String
  kid : String
  use : String
  n : String
  e : String
  other : List (String × String) := []
deriving Repr, DecidableEq

/-- The parsed JWKS document: a JSON object with a `keys` array. -/
structure Jwks where
  keys : List JwksKey
deriving Repr, DecidableEq

/-- Shape of the `rsa_key` dict built at auth.py lines 127-133: exactly the
fields `kty`, `kid`, `use`, `n`, `e`. -/
structure RsaKey where
  kty : String
  kid : String
  use : String
  n : String
  e : String
deriving Repr, DecidableEq

/-- Builds the five-field copy of one JWKS entry, as assigned to `rsa_key`
inside the loop. -/
def mkRsaKey (key : JwksKey) : RsaKey :=
  ⟨key.kty, key.kid, key.use, key.n, key.e⟩

/-- The token's unverified header segment as returned by
`jwt.get_unverified_header`; only `kid` is read (`none` = field absent). -/
structure JwtHeader where
  kid : Option String
deriving Repr, DecidableEq

/-- Outcome of the `jwt.decode(…)` call, mirroring the `try/except` arms at
auth.py lines 137-159: success with a payload, `ExpiredSignatureError`,
`JWTClaimsError`, or any other exception. -/
inductive DecodeResult where
  | ok (payload : Payload)
  | expiredSignature
  | claimsError
  | otherError
deriving Repr, DecidableEq

/-- A failure escaping `verify_decode_jwt`: either a raised `AuthError`, or
an exception the Python code does not catch (e.g. a `URLError` from
`urlopen` or a `JSONDecodeError`), which propagates past the auth core. -/
inductive VerifyError where
  | authError (e : AuthError)
  | exception (msg : String)
deriving Repr, DecidableEq

/-- Whether a `verify_decode_jwt` outcome is a raised `AuthError` (as opposed
to success or an uncaught exception). -/
def isAuthErrorResult : Except VerifyError Payload → Bool
  | .error (.authError _) => true
  | _ => false

/-- The key-selection loop at auth.py lines 125-133: `rsa_key` starts as `{}`
and is overwritten by every entry whose `kid` matches, so the last matching
entry wins; `none` models the empty dict. -/
def find_rsa_key (keys : List JwksKey) (hkid : String) : Option RsaKey :=
  keys.foldl (fun acc key => if key.kid == hkid then some (mkRsaKey key) else acc) none

/-- The `try: payload = jwt.decode(…) except …` block at auth.py
lines 137-159, given the outcome of the decode call. -/
def decode_step (d : RsaKey → DecodeResult) (rsa_key : RsaKey) : Except VerifyError Payload :=
  match d rsa_key with
  | .ok payload => .ok payload
  | .expiredSignature =>
    .error (.authError ⟨⟨"token_expired", "token is expired"⟩, 401⟩)
  | .claimsError =>
    .error (.authError
      ⟨⟨"invalid_claims", "incorrect claims,please check the audience and issuer"⟩, 401⟩)
  | .otherError =>
    .error (.authError ⟨⟨"invalid_header", "Unable to parse authentication token."⟩, 401⟩)

/-- Token verification, `verify_decode_jwt(token)`, auth.py lines 109-162.
Here `jwksFetch` is the
result of `urlopen` + `json.loads` (`.error msg` = the exception those lines
would raise, which the source does not catch); `unverified_header` is the
result of `jwt.get_unverified_header(token)`; `d` is the outcome of
`jwt.decode` as a function of the selected `rsa_key`. -/
def verify_decode_jwt (jwksFetch : Except String Jwks) (unverified_header : JwtHeader)
    (d : RsaKey → DecodeResult) : Except VerifyError Payload :=
  match jwksFetch with
  | .error msg => .error (.exception msg)
  | .ok jwks =>
    match unverified_header.kid with
    | none =>
      .error (.authError ⟨⟨"invalid_header", "Authorization malformed."⟩, 401⟩)
    | some hkid =>
      match find_rsa_key jwks.keys hkid with
      | some rsa_key => decode_step d rsa_key
      | none =>
        .error (.authError ⟨⟨"invalid_header", "Unable to find appropriate key"⟩, 401⟩)

/-- The per-request environment the wrapper reads: the `Authorization`
header, the JWKS fetch result, and the behaviour of the two `jose.jwt`
calls on the extracted token. -/
structure AuthEnv where
  authorization : Option String
  jwksFetch : Except String Jwks
  jwtHeader : String → JwtHeader
  decode : String → RsaKey → DecodeResult

/-- The `wrapper` produced by `requires_auth(permission)`, auth.py
lines 177-187: run the three stages in order, short-circuiting on a raised
error, and on success call `f(*args, **kwargs)`.  The second component
records every argument vector `f` is invoked with (so `[]` = never invoked,
`[args]` = invoked exactly once with the original arguments). -/
def requires_auth {α : Type} (permission : String) (f : List String → α)
    (env : AuthEnv) (args : List String) :
    Except VerifyError α × List (List String) :=
  match get_token_auth_header env.authorization with
  | .error e => (.error (.authError e), [])
  | .ok token =>
    match verify_decode_jwt env.jwksFetch (env.jwtHeader token) (env.decode token) with
    | .error e => (.error e, [])
    | .ok payload =>
      match check_permissions permission payload with
      | .error e => (.error (.authError e), [])
      | .ok _ => (.ok (f args), [args])

/-- The `@app.errorhandler(AuthError)` boundary handler `auth_error`,
api.py lines 218-224: the JSON body and the HTTP status code. -/
structure JsonResponse where
  success : Bool
  error : Nat
  message : String
deriving Repr, DecidableEq

/-- Boundary handler `auth_error(exception)`, api.py lines 218-224. -/
def auth_error (exception : AuthError) : JsonResponse × Nat :=
  (⟨false, exception.status_code, exception.error.description⟩, exception.status_code)

/-- The selection loop keeps the last matching entry: `find_rsa_key` returns
the five-field copy of the last element of the matching sublist. -/
theorem find_rsa_key_eq_last (keys : List JwksKey) (hkid : String) :
    find_rsa_key keys hkid =
      ((keys.filter (fun k => k.kid == hkid)).getLast?).map mkRsaKey := by
  induction keys using List.reverseRecOn with
  | nil => rfl
  | append_singleton l x ih =>
    simp only [find_rsa_key, List.foldl_append, List.foldl_cons, List.foldl_nil,
      List.filter_append, List.filter_cons, List.filter_nil]
    by_cases hx : x.kid == hkid
    · simp [hx, List.getLast?_concat]
    · simp only [hx, Bool.false_eq_true, if_false, List.append_nil]
      simpa [find_rsa_key] using ih

/-- C3: given the request's header mapping, `get_token_auth_header` fails with
code `authorization_header_missing` and status 401 when no `Authorization`
entry exists; otherwise it splits the header value on the space character and
fails with code `invalid_header` and status 401 unless the result is exactly
two tokens whose first token equals "bearer" case-insensitively; otherwise it
returns the second token verbatim. -/
theorem get_token_auth_header_spec :
    (get_token_auth_header none =
      Except.error ⟨⟨"authorization_header_missing", "Authorization header is expected"⟩, 401⟩) ∧
    (∀ value : String,
      ((py_split_space value).length ≠ 2 ∨
          py_lower ((py_split_space value).headD "") ≠ "bearer" →
        get_token_auth_header (some value) =
          Except.error ⟨⟨"invalid_header",
            "header must start with 'Bearer' and include proper token"⟩, 401⟩) ∧
      ((py_split_space value).length = 2 ∧
          py_lower ((py_split_space value).headD "") = "bearer" →
        get_token_auth_header (some value) =
          Except.ok ((py_split_space value).getD 1 ""))) := by
  refine ⟨rfl, fun value => ⟨fun h => ?_, fun h => ?_⟩⟩
  · simp only [get_token_auth_header]
    rw [if_pos h]
  · simp only [get_token_auth_header]
    rw [if_neg (by push_neg; exact h)]

/-- Witness for C3: a wrong-scheme header is rejected and a well-formed bearer
header yields the raw token. -/
theorem get_token_auth_header_spec_witness :
    get_token_auth_header (some "Basic abc") =
      Except.error ⟨⟨"invalid_header",
        "header must start with 'Bearer' and include proper token"⟩, 401⟩ ∧
    get_token_auth_header (some "Bearer abc") = Except.ok "abc" :=
  ⟨(get_token_auth_header_spec.2 "Basic abc").1 (by decide),
   (get_token_auth_header_spec.2 "Bearer abc").2 (by decide)⟩

/-- C6: `check_permissions` fails with code `missing_permissions` and status
401 when the payload has no `permissions` key; fails with code
`not_authorized` and status 401 when the required permission is not a member
of the payload's permission collection; and otherwise succeeds (returning
`True`, the payload untouched). -/
theorem check_permissions_spec (permission : String) (payload : Payload) :
    (payload.permissions = none →
      check_permissions permission payload =
        Except.error ⟨⟨"missing_permissions", "permissions must be sent with token"⟩, 401⟩) ∧
    (∀ perms, payload.permissions = some perms → permission ∉ perms →
      check_permissions permission payload =
        Except.error ⟨⟨"not_authorized", "needed permission not found in permissions"⟩, 401⟩) ∧
    (∀ perms, payload.permissions = some perms → permission ∈ perms →
      check_permissions permission payload = Except.ok true) := by
  refine ⟨fun h => ?_, fun perms h hmem => ?_, fun perms h hmem => ?_⟩
  · simp [check_permissions, h]
  · simp [check_permissions, h, hmem]
  · simp [check_permissions, h, hmem]

/-- Witness for C6: the three branches at concrete payloads. -/
theorem check_permissions_spec_witness :
    check_permissions "get:drinks-detail" ⟨none, []⟩ =
      Except.error ⟨⟨"missing_permissions", "permissions must be sent with token"⟩, 401⟩ ∧
    check_permissions "post:drinks" ⟨some ["get:drinks"], []⟩ =
      Except.error ⟨⟨"not_authorized", "needed permission not found in permissions"⟩, 401⟩ ∧
    check_permissions "post:drinks" ⟨some ["post:drinks"], []⟩ = Except.ok true :=
  ⟨(check_permissions_spec "get:drinks-detail" ⟨none, []⟩).1 rfl,
   (check_permissions_spec "post:drinks" ⟨some ["get:drinks"], []⟩).2.1
     ["get:drinks"] rfl (by decide),
   (check_permissions_spec "post:drinks" ⟨some ["post:drinks"], []⟩).2.2
     ["post:drinks"] rfl (by decide)⟩

/-- C7: for the empty required-permission string, `check_permissions` still
performs the membership check: any payload whose permission collection does
not contain the empty string is rejected with code `not_authorized`, status
401 — no short-circuit to automatic success. -/
theorem check_permissions_empty_string (payload : Payload) (perms : List String)
    (h1 : payload.permissions = some perms) (h2 : "" ∉ perms) :
    check_permissions "" payload =
      Except.error ⟨⟨"not_authorized", "needed permission not found in permissions"⟩, 401⟩ := by
  simp [check_permissions, h1, h2]

/-- Witness for C7: a payload holding one ordinary permission rejects the
empty required-permission string. -/
theorem check_permissions_empty_string_witness :
    check_permissions "" ⟨some ["get:drinks-detail"], []⟩ =
      Except.error ⟨⟨"not_authorized", "needed permission not found in permissions"⟩, 401⟩ :=
  check_permissions_empty_string ⟨some ["get:drinks-detail"], []⟩
    ["get:drinks-detail"] rfl (by decide)

/-- C9: the boundary handler renders every `AuthError` as the JSON body
with `success = false`, `error` = the status code and `message` = the
description, with the HTTP status equal to the status code; in particular the
missing-header error renders as 401 "Authorization header is expected". -/
theorem auth_error_spec :
    (∀ e : AuthError,
      (auth_error e).1.success = false ∧ (auth_error e).1.error = e.status_code ∧
      (auth_error e).1.message = e.error.description ∧ (auth_error e).2 = e.status_code) ∧
    (∀ e : AuthError, get_token_auth_header none = Except.error e →
      auth_error e = (⟨false, 401, "Authorization header is expected"⟩, 401)) := by
  refine ⟨fun e => ⟨rfl, rfl, rfl, rfl⟩, fun e h => ?_⟩
  have he :
      e = ⟨⟨"authorization_header_missing", "Authorization header is expected"⟩, 401⟩ := by
    simpa [get_token_auth_header] using h.symm
  rw [he]
  rfl

/-- Witness for C9: the end-to-end missing-header scenario renders as
`(success false, error 401, message "Authorization header is expected")`
with HTTP status 401. -/
theorem auth_error_spec_witness :
    auth_error ⟨⟨"authorization_header_missing", "Authorization header is expected"⟩, 401⟩ =
      (⟨false, 401, "Authorization header is expected"⟩, 401) :=
  auth_error_spec.2
    ⟨⟨"authorization_header_missing", "Authorization header is expected"⟩, 401⟩ rfl

/-- C4: `verify_decode_jwt` fails with code `invalid_header` and status 401
when the token's unverified header has no `kid` field, and fails with code
`invalid_header`, status 401 and description "Unable to find appropriate key"
when no entry of the fetched key set has a matching `kid`; in neither case is
a claim set produced (the result is an error, never `Except.ok`). -/
theorem verify_decode_jwt_header_errors :
    (∀ (jwks : Jwks) (d : RsaKey → DecodeResult),
      verify_decode_jwt (Except.ok jwks) ⟨none⟩ d =
        Except.error (VerifyError.authError
          ⟨⟨"invalid_header", "Authorization malformed."⟩, 401⟩)) ∧
    (∀ (jwks : Jwks) (hkid : String) (d : RsaKey → DecodeResult),
      jwks.keys.filter (fun k => k.kid == hkid) = [] →
      verify_decode_jwt (Except.ok jwks) ⟨some hkid⟩ d =
        Except.error (VerifyError.authError
          ⟨⟨"invalid_header", "Unable to find appropriate key"⟩, 401⟩)) := by
  refine ⟨fun jwks d => rfl, fun jwks hkid d h => ?_⟩
  have hnone : find_rsa_key jwks.keys hkid = none := by
    rw [find_rsa_key_eq_last, h]
    rfl
  simp [verify_decode_jwt, hnone]

/-- Witness for C4: both header-stage failures at concrete inputs. -/
theorem verify_decode_jwt_header_errors_witness :
    verify_decode_jwt (Except.ok ⟨[⟨"RSA", "k1", "sig", "n1", "e1", []⟩]⟩) ⟨none⟩
      (fun _ => DecodeResult.otherError) =
      Except.error (VerifyError.authError
        ⟨⟨"invalid_header", "Authorization malformed."⟩, 401⟩) ∧
    verify_decode_jwt (Except.ok ⟨[⟨"RSA", "k1", "sig", "n1", "e1", []⟩]⟩) ⟨some "k2"⟩
      (fun _ => DecodeResult.otherError) =
      Except.error (VerifyError.authError
        ⟨⟨"invalid_header", "Unable to find appropriate key"⟩, 401⟩) :=
  ⟨verify_decode_jwt_header_errors.1 ⟨[⟨"RSA", "k1", "sig", "n1", "e1", []⟩]⟩
      (fun _ => DecodeResult.otherError),
   verify_decode_jwt_header_errors.2 ⟨[⟨"RSA", "k1", "sig", "n1", "e1", []⟩]⟩ "k2"
      (fun _ => DecodeResult.otherError) rfl⟩

/-- C5: once a matching key is located, every failure of the decode step is
classified into exactly one of three 401 `AuthError`s — expired signature →
`token_expired`, claims failure → `invalid_claims`, any other exception →
`invalid_header` — and on full success the decoded payload is returned as the
claim set. -/
theorem verify_decode_jwt_classification (jwks : Jwks) (hkid : String) (rk : RsaKey)
    (d : RsaKey → DecodeResult)
    (hfound : find_rsa_key jwks.keys hkid = some rk) :
    (∀ p, d rk = DecodeResult.ok p →
      verify_decode_jwt (Except.ok jwks) ⟨some hkid⟩ d = Except.ok p) ∧
    (d rk = DecodeResult.expiredSignature →
      verify_decode_jwt (Except.ok jwks) ⟨some hkid⟩ d =
        Except.error (VerifyError.authError ⟨⟨"token_expired", "token is expired"⟩, 401⟩)) ∧
    (d rk = DecodeResult.claimsError →
      verify_decode_jwt (Except.ok jwks) ⟨some hkid⟩ d =
        Except.error (VerifyError.authError
          ⟨⟨"invalid_claims", "incorrect claims,please check the audience and issuer"⟩, 401⟩)) ∧
    (d rk = DecodeResult.otherError →
      verify_decode_jwt (Except.ok jwks) ⟨some hkid⟩ d =
        Except.error (VerifyError.authError
          ⟨⟨"invalid_header", "Unable to parse authentication token."⟩, 401⟩)) := by
  refine ⟨fun p h => ?_, fun h => ?_, fun h => ?_, fun h => ?_⟩ <;>
    simp [verify_decode_jwt, hfound, decode_step, h]

/-- Witness for C5: with a located key, an expired-signature decode is
classified as `token_expired` with status 401. -/
theorem verify_decode_jwt_classification_witness :
    verify_decode_jwt (Except.ok ⟨[⟨"RSA", "k1", "sig", "n1", "e1", []⟩]⟩) ⟨some "k1"⟩
      (fun _ => DecodeResult.expiredSignature) =
      Except.error (VerifyError.authError ⟨⟨"token_expired", "token is expired"⟩, 401⟩) :=
  (verify_decode_jwt_classification ⟨[⟨"RSA", "k1", "sig", "n1", "e1", []⟩]⟩ "k1"
      ⟨"RSA", "k1", "sig", "n1", "e1"⟩ (fun _ => DecodeResult.expiredSignature) rfl).2.1 rfl

/-- C10: when more than one entry of the key set carries the matching `kid`,
`verify_decode_jwt` verifies with the last such entry in key-set order (the
scan overwrites earlier matches), and the selected key record is exactly the
`kty`, `kid`, `use`, `n`, `e` fields copied from that entry. -/
theorem verify_decode_jwt_selects_last_match (jwks : Jwks) (hkid : String) (k : JwksKey)
    (d : RsaKey → DecodeResult)
    (hdup : 1 < (jwks.keys.filter (fun x => x.kid == hkid)).length)
    (hlast : (jwks.keys.filter (fun x => x.kid == hkid)).getLast? = some k) :
    verify_decode_jwt (Except.ok jwks) ⟨some hkid⟩ d = decode_step d (mkRsaKey k) ∧
    mkRsaKey k = ⟨k.kty, k.kid, k.use, k.n, k.e⟩ := by
  have hf : find_rsa_key jwks.keys hkid = some (mkRsaKey k) := by
    rw [find_rsa_key_eq_last, hlast]
    rfl
  exact ⟨by simp [verify_decode_jwt, hf], rfl⟩

/-- Witness for C10: with two entries sharing `kid` "k1", verification uses
the second entry's material (modulus "n2"), not the first. -/
theorem verify_decode_jwt_selects_last_match_witness :
    verify_decode_jwt
      (Except.ok ⟨[⟨"RSA", "k1", "sig", "n1", "e1", []⟩, ⟨"RSA", "k1", "sig", "n2", "e2", []⟩]⟩)
      ⟨some "k1"⟩ (fun rk => DecodeResult.ok ⟨some [rk.n], []⟩) =
      decode_step (fun rk => DecodeResult.ok ⟨some [rk.n], []⟩)
        (mkRsaKey ⟨"RSA", "k1", "sig", "n2", "e2", []⟩) ∧
    mkRsaKey ⟨"RSA", "k1", "sig", "n2", "e2", []⟩ = ⟨"RSA", "k1", "sig", "n2", "e2"⟩ :=
  verify_decode_jwt_selects_last_match
    ⟨[⟨"RSA", "k1", "sig", "n1", "e1", []⟩, ⟨"RSA", "k1", "sig", "n2", "e2", []⟩]⟩ "k1"
    ⟨"RSA", "k1", "sig", "n2", "e2", []⟩ (fun rk => DecodeResult.ok ⟨some [rk.n], []⟩)
    (by decide) (by decide)

/-- C8 (amended): a failure of the key-set fetch or of the JSON parse of its
response propagates out of `verify_decode_jwt` as the uncaught exception
itself — not as an `AuthError` of the taxonomy — and verification never
proceeds: no key is selected, the decode step never runs, and no claim set is
produced. -/
theorem verify_decode_jwt_fetch_error_propagates (msg : String) (h : JwtHeader)
    (d : RsaKey → DecodeResult) :
    verify_decode_jwt (Except.error msg) h d = Except.error (VerifyError.exception msg) :=
  rfl

/-- Counterexample for C8 as stated: at a concrete fetch failure the outcome
of `verify_decode_jwt` is not a raised `AuthError` of the taxonomy (it is the
uncaught fetch exception). -/
theorem verify_decode_jwt_fetch_error_counterexample :
    isAuthErrorResult
      (verify_decode_jwt (Except.error "URLError: certificate verify failed")
        ⟨some "k1"⟩ (fun _ => DecodeResult.otherError)) = false :=
  rfl

/-- C1: for every invocation of the wrapper built by
`requires_auth(permission)`, if any of the three stages (token extraction,
token verification, permission check) raises an `AuthError`, the wrapped
operation is never invoked (its call trace is empty) and that error
propagates unchanged; the wrapped operation begins executing only when all
checks pass. -/
theorem requires_auth_short_circuit {α : Type} (permission : String)
    (f : List String → α) (env : AuthEnv) (args : List String) :
    (∀ e, get_token_auth_header env.authorization = Except.error e →
      requires_auth permission f env args =
        (Except.error (VerifyError.authError e), [])) ∧
    (∀ token e, get_token_auth_header env.authorization = Except.ok token →
      verify_decode_jwt env.jwksFetch (env.jwtHeader token) (env.decode token) =
        Except.error e →
      requires_auth permission f env args = (Except.error e, [])) ∧
    (∀ token payload e, get_token_auth_header env.authorization = Except.ok token →
      verify_decode_jwt env.jwksFetch (env.jwtHeader token) (env.decode token) =
        Except.ok payload →
      check_permissions permission payload = Except.error e →
      requires_auth permission f env args =
        (Except.error (VerifyError.authError e), [])) := by
  refine ⟨fun e h1 => ?_, fun token e h1 h2 => ?_, fun token payload e h1 h2 h3 => ?_⟩
  · simp [requires_auth, h1]
  · simp [requires_auth, h1, h2]
  · simp [requires_auth, h1, h2, h3]

/-- Witness for C1: with no `Authorization` header, the wrapper returns the
missing-header `AuthError` unchanged and the handler is never called. -/
theorem requires_auth_short_circuit_witness :
    requires_auth "get:drinks-detail" (fun l : List String => l.length)
      ⟨none, Except.ok ⟨[]⟩, fun _ => ⟨none⟩, fun _ _ => DecodeResult.otherError⟩ [] =
      (Except.error (VerifyError.authError
        ⟨⟨"authorization_header_missing", "Authorization header is expected"⟩, 401⟩), []) :=
  (requires_auth_short_circuit "get:drinks-detail" (fun l : List String => l.length)
      ⟨none, Except.ok ⟨[]⟩, fun _ => ⟨none⟩, fun _ _ => DecodeResult.otherError⟩ []).1
    ⟨⟨"authorization_header_missing", "Authorization header is expected"⟩, 401⟩ rfl

/-- C2 (code evaluation): when all three stages succeed, the wrapper invokes
the handler exactly once — but as `f(*args, **kwargs)`, with the original
arguments only: the decoded payload is not forwarded to it (contrary to the
decorator's own docstring, which says it passes the decoded payload to the
decorated method). -/
theorem requires_auth_success_invokes_once {α : Type} (permission : String)
    (f : List String → α) (env : AuthEnv) (args : List String) (token : String)
    (payload : Payload)
    (h1 : get_token_auth_header env.authorization = Except.ok token)
    (h2 : verify_decode_jwt env.jwksFetch (env.jwtHeader token) (env.decode token) =
      Except.ok payload)
    (h3 : check_permissions permission payload = Except.ok true) :
    requires_auth permission f env args = (Except.ok (f args), [args]) := by
  simp [requires_auth, h1, h2, h3]

/-- Witness for C2: a fully authorized request runs the handler exactly once
with the original argument vector, the payload nowhere among its inputs. -/
theorem requires_auth_success_invokes_once_witness :
    requires_auth "get:drinks-detail" (fun l : List String => l.length)
      ⟨some "Bearer tok", Except.ok ⟨[⟨"RSA", "k1", "sig", "n1", "e1", []⟩]⟩,
        fun _ => ⟨some "k1"⟩,
        fun _ _ => DecodeResult.ok ⟨some ["get:drinks-detail"], []⟩⟩
      ["arg"] = (Except.ok 1, [["arg"]]) :=
  requires_auth_success_invokes_once "get:drinks-detail" (fun l : List String => l.length)
    ⟨some "Bearer tok", Except.ok ⟨[⟨"RSA", "k1", "sig", "n1", "e1", []⟩]⟩,
      fun _ => ⟨some "k1"⟩,
      fun _ _ => DecodeResult.ok ⟨some ["get:drinks-detail"], []⟩⟩
    ["arg"] "tok" ⟨some ["get:drinks-detail"], []⟩ rfl rfl rfl

end CoffeeShop
